import Mathlib

/-!
Shallow embedding of the `web-operator` controller
(`internal/controller/web_controller.go`, `api/v1alpha1/web_types.go`).

The reconciler fetches a `Web` resource, then for each dependent
(a ConfigMap named `<name>-cm`, then a Deployment named `<name>deployment`)
it fetches the dependent by its derived name and, when absent, builds the
desired object, sets the controller owner reference and creates it,
swallowing AlreadyExists conflicts on create.

The state store is modelled as lists of typed objects keyed by
(name, namespace).  Store calls that can fail for reasons other than the
object's absence (transient API errors, owner-reference failures) are
driven by an `Env` of per-call fault oracles; a concurrent creator racing
our create is modelled by an optional object inserted just before the
create call.  `reconcile` returns the outcome, the resulting cluster
state and the log of successful creates performed by the pass, in order.
-/

namespace WebOperator

/-- Spec fields of a Web resource.  `size` and `containerPort` are the two
fields declared in `WebSpec` in `api/v1alpha1/web_types.go` (size bounded
1..5 by validation markers); `image` and `htmlContent` are the two fields
the reconciler reads (`web.Spec.Image`, `web.Spec.HtmlContent`). -/
structure WebSpec where
  size : Int
  containerPort : Int
  image : String
  htmlContent : String
deriving DecidableEq

/-- A Web custom resource: identity plus spec. -/
structure Web where
  name : String
  ns : String
  spec : WebSpec
deriving DecidableEq

/-- A ConfigMap: identity, data entries, and owner references
(names of owning objects, set by `SetControllerReference`). -/
structure ConfigMap where
  name : String
  ns : String
  data : List (String × String)
  ownerRefs : List String
deriving DecidableEq

/-- A container volume mount, as in the pod template literal. -/
structure VolumeMount where
  mountPath : String
  name : String
deriving DecidableEq

/-- A container of the pod template.  The Go literal sets `Image`, `Name`
and `VolumeMounts` only; `Ports` is left at its zero value (empty). -/
structure Container where
  image : String
  name : String
  volumeMounts : List VolumeMount
  ports : List Int
deriving DecidableEq

/-- A pod volume sourced from a ConfigMap, as in the Go literal. -/
structure Volume where
  name : String
  configMapName : String
deriving DecidableEq

/-- The deployment spec built by the reconciler.  `replicas` models the Go
pointer field `Replicas *int32`, which the literal leaves nil (`none`). -/
structure DeploymentSpec where
  replicas : Option Int
  matchLabels : List (String × String)
  templateLabels : List (String × String)
  containers : List Container
  volumes : List Volume
deriving DecidableEq

/-- A Deployment: identity, spec and owner references. -/
structure Deployment where
  name : String
  ns : String
  spec : DeploymentSpec
  ownerRefs : List String
deriving DecidableEq

/-- The dependent-object part of cluster state: the objects the
reconciler may write. -/
structure DepState where
  configMaps : List ConfigMap
  deployments : List Deployment
deriving DecidableEq

/-- Full cluster state: Web resources plus their dependents. -/
structure Cluster where
  webs : List Web
  state : DepState
deriving DecidableEq

/-- A reconcile request: the (name, namespace) identifier delivered by
the watch mechanism. -/
structure Request where
  name : String
  ns : String
deriving DecidableEq

/-- Result of a store `Get`: the object, NotFound, or a transient error. -/
inductive GetResult (α : Type) where
  | found : α → GetResult α
  | notFound : GetResult α
  | fault : String → GetResult α
deriving DecidableEq

/-- Result of a store `Create`: success, AlreadyExists conflict, or a
transient error. -/
inductive CreateResult where
  | created : CreateResult
  | alreadyExists : CreateResult
  | fault : String → CreateResult
deriving DecidableEq

/-- Outcome of a reconcile pass: `(ctrl.Result{}, nil)` or
`(ctrl.Result{}, err)`. -/
inductive Outcome where
  | ok : Outcome
  | err : String → Outcome
deriving DecidableEq

/-- A successful write performed by the pass. -/
inductive WriteOp where
  | createdCM : ConfigMap → WriteOp
  | createdDep : Deployment → WriteOp
deriving DecidableEq

/-- Fault/race oracles for the store calls of one pass, in program order.
`none` everywhere means the store behaves normally.  `cmRace` / `depRace`
model a concurrent creator whose object lands just before our create. -/
structure Env where
  getWebFault : Option String
  getCMFault : Option String
  setOwnerCMFault : Option String
  createCMFault : Option String
  cmRace : Option ConfigMap
  getDepFault : Option String
  setOwnerDepFault : Option String
  createDepFault : Option String
  depRace : Option Deployment
deriving DecidableEq

/-- The fault-free environment. -/
def defaultEnv : Env :=
  ⟨none, none, none, none, none, none, none, none, none⟩

/-- Look up a Web by (name, namespace). -/
def findWeb (c : Cluster) (n nsp : String) : Option Web :=
  c.webs.find? (fun w => w.name == n && w.ns == nsp)

/-- Look up a ConfigMap by (name, namespace). -/
def findCM (s : DepState) (n nsp : String) : Option ConfigMap :=
  s.configMaps.find? (fun x => x.name == n && x.ns == nsp)

/-- Look up a Deployment by (name, namespace). -/
def findDep (s : DepState) (n nsp : String) : Option Deployment :=
  s.deployments.find? (fun x => x.name == n && x.ns == nsp)

/-- `r.Get` on the Web resource. -/
def getWeb (e : Env) (c : Cluster) (n nsp : String) : GetResult Web :=
  match e.getWebFault with
  | some m => GetResult.fault m
  | none =>
    match findWeb c n nsp with
    | some w => GetResult.found w
    | none => GetResult.notFound

/-- `r.Get` on the ConfigMap. -/
def getCM (e : Env) (s : DepState) (n nsp : String) : GetResult ConfigMap :=
  match e.getCMFault with
  | some m => GetResult.fault m
  | none =>
    match findCM s n nsp with
    | some x => GetResult.found x
    | none => GetResult.notFound

/-- `r.Get` on the Deployment. -/
def getDep (e : Env) (s : DepState) (n nsp : String) : GetResult Deployment :=
  match e.getDepFault with
  | some m => GetResult.fault m
  | none =>
    match findDep s n nsp with
    | some x => GetResult.found x
    | none => GetResult.notFound

/-- `ctrl.SetControllerReference(&web, cm, ...)`: on success the object
carries the owner back-reference to the Web. -/
def setOwnerCM (fault : Option String) (web : Web) (cm : ConfigMap) :
    Except String ConfigMap :=
  match fault with
  | some m => Except.error m
  | none => Except.ok { cm with ownerRefs := [web.name] }

/-- `ctrl.SetControllerReference(&web, dep, ...)`. -/
def setOwnerDep (fault : Option String) (web : Web) (dep : Deployment) :
    Except String Deployment :=
  match fault with
  | some m => Except.error m
  | none => Except.ok { dep with ownerRefs := [web.name] }

/-- `r.Create` of a ConfigMap: a transient fault, else the store's atomic
conflict-detecting create (a racing creator's object, if any, lands
first). -/
def createCMOp (fault : Option String) (race : Option ConfigMap)
    (s : DepState) (cm : ConfigMap) : CreateResult × DepState :=
  match fault with
  | some m => (CreateResult.fault m, s)
  | none =>
    let s1 : DepState :=
      match race with
      | some r => { s with configMaps := r :: s.configMaps }
      | none => s
    match findCM s1 cm.name cm.ns with
    | some _ => (CreateResult.alreadyExists, s1)
    | none => (CreateResult.created, { s1 with configMaps := cm :: s1.configMaps })

/-- `r.Create` of a Deployment. -/
def createDepOp (fault : Option String) (race : Option Deployment)
    (s : DepState) (dep : Deployment) : CreateResult × DepState :=
  match fault with
  | some m => (CreateResult.fault m, s)
  | none =>
    let s1 : DepState :=
      match race with
      | some r => { s with deployments := r :: s.deployments }
      | none => s
    match findDep s1 dep.name dep.ns with
    | some _ => (CreateResult.alreadyExists, s1)
    | none => (CreateResult.created, { s1 with deployments := dep :: s1.deployments })

/-- The ConfigMap literal built when the fetch reported NotFound:
name `<name>-cm`, same namespace, one data entry mapping `index.html`
to the Web's inline HTML content. -/
def desiredConfigMap (web : Web) : ConfigMap :=
  { name := web.name ++ "-cm"
    ns := web.ns
    data := [("index.html", web.spec.htmlContent)]
    ownerRefs := [] }

/-- The Deployment literal built when the fetch reported NotFound:
name `<name>deployment`, selector and template labels `app: <name>`,
a single container `web-container` with the spec's image mounting the
`html` volume at `/app`, and the `html` volume sourced from the
ConfigMap name `cmName` (the `cm.Name` in scope at that point). -/
def desiredDeployment (web : Web) (cmName : String) : Deployment :=
  { name := web.name ++ "deployment"
    ns := web.ns
    spec :=
      { replicas := none
        matchLabels := [("app", web.name)]
        templateLabels := [("app", web.name)]
        containers :=
          [{ image := web.spec.image
             name := "web-container"
             volumeMounts := [{ mountPath := "/app", name := "html" }]
             ports := [] }]
        volumes := [{ name := "html", configMapName := cmName }] }
    ownerRefs := [] }

/-- The Deployment step of the pass: fetch by derived name; if absent,
build the desired deployment (referencing `cm.name`), set the owner
reference, create, swallowing AlreadyExists.  `ws` is the write log
accumulated so far. -/
def depStep (e : Env) (web : Web) (cm : ConfigMap) (s : DepState)
    (ws : List WriteOp) : Outcome × DepState × List WriteOp :=
  match getDep e s (web.name ++ "deployment") web.ns with
  | GetResult.fault m => (Outcome.err m, s, ws)
  | GetResult.found _ => (Outcome.ok, s, ws)
  | GetResult.notFound =>
    match setOwnerDep e.setOwnerDepFault web (desiredDeployment web cm.name) with
    | Except.error m => (Outcome.err m, s, ws)
    | Except.ok dep1 =>
      match createDepOp e.createDepFault e.depRace s dep1 with
      | (CreateResult.fault m, s1) => (Outcome.err m, s1, ws)
      | (CreateResult.alreadyExists, s1) => (Outcome.ok, s1, ws)
      | (CreateResult.created, s1) => (Outcome.ok, s1, ws ++ [WriteOp.createdDep dep1])

/-- The body of the pass after the Web has been fetched: the ConfigMap
step followed by the Deployment step.  The ConfigMap in scope for the
Deployment step is the fetched one when it existed, otherwise the
locally built one (also after a swallowed AlreadyExists). -/
def reconcileWeb (e : Env) (web : Web) (s : DepState) :
    Outcome × DepState × List WriteOp :=
  match getCM e s (web.name ++ "-cm") web.ns with
  | GetResult.fault m => (Outcome.err m, s, [])
  | GetResult.found cm => depStep e web cm s []
  | GetResult.notFound =>
    match setOwnerCM e.setOwnerCMFault web (desiredConfigMap web) with
    | Except.error m => (Outcome.err m, s, [])
    | Except.ok cm1 =>
      match createCMOp e.createCMFault e.cmRace s cm1 with
      | (CreateResult.fault m, s1) => (Outcome.err m, s1, [])
      | (CreateResult.alreadyExists, s1) => depStep e web cm1 s1 []
      | (CreateResult.created, s1) => depStep e web cm1 s1 [WriteOp.createdCM cm1]

/-- One reconcile pass: fetch the Web; absence is a successful no-op;
a non-NotFound fetch error is returned; otherwise run the two dependent
steps. -/
def reconcile (e : Env) (c : Cluster) (req : Request) :
    Outcome × Cluster × List WriteOp :=
  match getWeb e c req.name req.ns with
  | GetResult.fault m => (Outcome.err m, c, [])
  | GetResult.notFound => (Outcome.ok, c, [])
  | GetResult.found web =>
    let r := reconcileWeb e web c.state
    (r.1, { c with state := r.2.1 }, r.2.2)

/-- The ConfigMap as created by a pass: desired shape plus the owner
reference to the Web. -/
def ownedCM (web : Web) : ConfigMap :=
  { desiredConfigMap web with ownerRefs := [web.name] }

/-- The Deployment as created by a pass: desired shape (its volume
referencing the derived ConfigMap name) plus the owner reference. -/
def ownedDep (web : Web) : Deployment :=
  { desiredDeployment web (web.name ++ "-cm") with ownerRefs := [web.name] }

/-! ### Inversion lemmas for the store operations -/

lemma findWeb_some_key {c : Cluster} {n nsp : String} {w : Web}
    (h : findWeb c n nsp = some w) : w.name = n ∧ w.ns = nsp := by
  unfold findWeb at h
  have h2 := List.find?_some h
  simpa [Bool.and_eq_true, beq_iff_eq] using h2

lemma findCM_some_key {s : DepState} {n nsp : String} {cm : ConfigMap}
    (h : findCM s n nsp = some cm) : cm.name = n ∧ cm.ns = nsp := by
  unfold findCM at h
  have h2 := List.find?_some h
  simpa [Bool.and_eq_true, beq_iff_eq] using h2

lemma findDep_some_key {s : DepState} {n nsp : String} {d : Deployment}
    (h : findDep s n nsp = some d) : d.name = n ∧ d.ns = nsp := by
  unfold findDep at h
  have h2 := List.find?_some h
  simpa [Bool.and_eq_true, beq_iff_eq] using h2

lemma findDep_congr {s1 s2 : DepState} {n nsp : String}
    (h : s1.deployments = s2.deployments) : findDep s1 n nsp = findDep s2 n nsp := by
  unfold findDep
  rw [h]

@[simp]
lemma findDep_update_cms (s : DepState) (x : List ConfigMap) (n nsp : String) :
    findDep { s with configMaps := x } n nsp = findDep s n nsp := rfl

@[simp]
lemma findCM_update_deps (s : DepState) (x : List Deployment) (n nsp : String) :
    findCM { s with deployments := x } n nsp = findCM s n nsp := rfl

lemma getCM_found_key {e : Env} {s : DepState} {n nsp : String} {cm : ConfigMap}
    (h : getCM e s n nsp = GetResult.found cm) : findCM s n nsp = some cm := by
  unfold getCM at h
  cases hf : e.getCMFault with
  | some m => rw [hf] at h; exact absurd h (by simp)
  | none =>
    rw [hf] at h
    cases hc : findCM s n nsp with
    | some x => rw [hc] at h; injection h with h1; rw [h1]
    | none => rw [hc] at h; exact absurd h (by simp)

lemma getDep_found_key {e : Env} {s : DepState} {n nsp : String} {d : Deployment}
    (h : getDep e s n nsp = GetResult.found d) : findDep s n nsp = some d := by
  unfold getDep at h
  cases hf : e.getDepFault with
  | some m => rw [hf] at h; exact absurd h (by simp)
  | none =>
    rw [hf] at h
    cases hc : findDep s n nsp with
    | some x => rw [hc] at h; injection h with h1; rw [h1]
    | none => rw [hc] at h; exact absurd h (by simp)

lemma setOwnerCM_ok {f : Option String} {web : Web} {d cm1 : ConfigMap}
    (h : setOwnerCM f web d = Except.ok cm1) :
    cm1 = { d with ownerRefs := [web.name] } := by
  unfold setOwnerCM at h
  cases f with
  | some m => exact absurd h (by simp)
  | none => injection h with h1; exact h1.symm

lemma setOwnerDep_ok {f : Option String} {web : Web} {d dep1 : Deployment}
    (h : setOwnerDep f web d = Except.ok dep1) :
    dep1 = { d with ownerRefs := [web.name] } := by
  unfold setOwnerDep at h
  cases f with
  | some m => exact absurd h (by simp)
  | none => injection h with h1; exact h1.symm

/-- Reconcile with the Web present reduces to the body on the cluster's
dependent state. -/
lemma reconcile_found {e : Env} {c : Cluster} {req : Request} {web : Web}
    (h1 : e.getWebFault = none) (h2 : findWeb c req.name req.ns = some web) :
    reconcile e c req =
      ((reconcileWeb e web c.state).1,
        { c with state := (reconcileWeb e web c.state).2.1 },
        (reconcileWeb e web c.state).2.2) := by
  simp [reconcile, getWeb, h1, h2]

/-! ### The concrete scenario of the spec -/

/-- The Web resource of the spec's concrete scenario. -/
def webSite : Web := ⟨"site", "ns", ⟨2, 80, "nginx:1.25", "<h1>hi</h1>"⟩⟩

/-- The content holder the scenario expects. -/
def siteCM : ConfigMap :=
  ⟨"site-cm", "ns", [("index.html", "<h1>hi</h1>")], ["site"]⟩

/-- The workload the scenario expects: one container with the spec's
image, mounting the `html` volume (sourced from `site-cm`) at `/app`. -/
def siteDep : Deployment :=
  ⟨"sitedeployment", "ns",
    ⟨none, [("app", "site")], [("app", "site")],
      [⟨"nginx:1.25", "web-container", [⟨"/app", "html"⟩], []⟩],
      [⟨"html", "site-cm"⟩]⟩,
    ["site"]⟩

/-- C1: for the Web `{name: site, namespace: ns, size: 2, containerPort: 80,
image: nginx:1.25, htmlContent: <h1>hi</h1>}` with no pre-existing
dependents, one successful pass creates exactly the ConfigMap `site-cm`
in `ns` whose data is the single entry `index.html ↦ <h1>hi</h1>`, and the
Deployment `sitedeployment` in `ns` with one container using image
`nginx:1.25` that mounts the `site-cm` ConfigMap as a volume at `/app`. -/
theorem site_scenario_creates_exact_dependents :
    reconcile defaultEnv ⟨[webSite], ⟨[], []⟩⟩ ⟨"site", "ns"⟩ =
      (Outcome.ok, ⟨[webSite], ⟨[siteCM], [siteDep]⟩⟩,
        [WriteOp.createdCM siteCM, WriteOp.createdDep siteDep]) := by
  decide

/-- C2: when the Web resource does not exist (the fetch reports NotFound),
the pass returns a successful no-op outcome, leaves the cluster unchanged
and performs zero writes. -/
theorem absent_web_noop (e : Env) (c : Cluster) (req : Request)
    (h1 : e.getWebFault = none) (h2 : findWeb c req.name req.ns = none) :
    reconcile e c req = (Outcome.ok, c, []) := by
  simp [reconcile, getWeb, h1, h2]

theorem absent_web_noop_witness :
    reconcile defaultEnv ⟨[], ⟨[], []⟩⟩ ⟨"site", "ns"⟩ =
      (Outcome.ok, ⟨[], ⟨[], []⟩⟩, []) :=
  absent_web_noop defaultEnv ⟨[], ⟨[], []⟩⟩ ⟨"site", "ns"⟩ (by decide) (by decide)

/-- C3: when the Web and both dependents already exist, a fault-free pass
performs no writes and leaves the cluster unchanged, and a second pass on
the unchanged Web does the same: both passes return the same successful
outcome. -/
theorem reconcile_idempotent_when_converged (c : Cluster) (req : Request)
    (web : Web) (cm : ConfigMap) (d : Deployment)
    (hw : findWeb c req.name req.ns = some web)
    (hc : findCM c.state (web.name ++ "-cm") web.ns = some cm)
    (hd : findDep c.state (web.name ++ "deployment") web.ns = some d) :
    reconcile defaultEnv c req = (Outcome.ok, c, []) ∧
      reconcile defaultEnv (reconcile defaultEnv c req).2.1 req =
        (Outcome.ok, c, []) := by
  have hbody : reconcileWeb defaultEnv web c.state = (Outcome.ok, c.state, []) := by
    simp [reconcileWeb, getCM, depStep, getDep, defaultEnv, hc, hd]
  have h1 : reconcile defaultEnv c req = (Outcome.ok, c, []) := by
    rw [reconcile_found rfl hw, hbody]
  exact ⟨h1, by rw [h1, h1]⟩

theorem reconcile_idempotent_when_converged_witness :
    reconcile defaultEnv ⟨[webSite], ⟨[siteCM], [siteDep]⟩⟩ ⟨"site", "ns"⟩ =
        (Outcome.ok, ⟨[webSite], ⟨[siteCM], [siteDep]⟩⟩, []) ∧
      reconcile defaultEnv
          (reconcile defaultEnv ⟨[webSite], ⟨[siteCM], [siteDep]⟩⟩
            ⟨"site", "ns"⟩).2.1 ⟨"site", "ns"⟩ =
        (Outcome.ok, ⟨[webSite], ⟨[siteCM], [siteDep]⟩⟩, []) :=
  reconcile_idempotent_when_converged ⟨[webSite], ⟨[siteCM], [siteDep]⟩⟩
    ⟨"site", "ns"⟩ webSite siteCM siteDep (by decide) (by decide) (by decide)

/-- C4: for a Web with no dependents yet, a fault-free pass creates the
content holder strictly before the workload (the write log lists the
ConfigMap create first), and the created workload's volume source
references exactly the derived ConfigMap name `<name>-cm`. -/
theorem content_holder_created_before_workload (c : Cluster) (req : Request)
    (web : Web)
    (hw : findWeb c req.name req.ns = some web)
    (hc : findCM c.state (web.name ++ "-cm") web.ns = none)
    (hd : findDep c.state (web.name ++ "deployment") web.ns = none) :
    reconcile defaultEnv c req =
      (Outcome.ok,
        { c with state := ⟨ownedCM web :: c.state.configMaps,
                            ownedDep web :: c.state.deployments⟩ },
        [WriteOp.createdCM (ownedCM web), WriteOp.createdDep (ownedDep web)]) ∧
      (ownedDep web).spec.volumes = [⟨"html", web.name ++ "-cm"⟩] := by
  have hbody : reconcileWeb defaultEnv web c.state =
      (Outcome.ok,
        ⟨ownedCM web :: c.state.configMaps, ownedDep web :: c.state.deployments⟩,
        [WriteOp.createdCM (ownedCM web), WriteOp.createdDep (ownedDep web)]) := by
    simp [reconcileWeb, getCM, depStep, getDep, setOwnerCM, setOwnerDep,
      createCMOp, createDepOp, defaultEnv, hc, hd, desiredConfigMap,
      desiredDeployment, ownedCM, ownedDep]
  refine ⟨?_, rfl⟩
  rw [reconcile_found rfl hw, hbody]

theorem content_holder_created_before_workload_witness :
    reconcile defaultEnv ⟨[webSite], ⟨[], []⟩⟩ ⟨"site", "ns"⟩ =
        (Outcome.ok,
          ⟨[webSite], ⟨[ownedCM webSite], [ownedDep webSite]⟩⟩,
          [WriteOp.createdCM (ownedCM webSite),
            WriteOp.createdDep (ownedDep webSite)]) ∧
      (ownedDep webSite).spec.volumes = [⟨"html", webSite.name ++ "-cm"⟩] :=
  content_holder_created_before_workload ⟨[webSite], ⟨[], []⟩⟩ ⟨"site", "ns"⟩
    webSite (by decide) (by decide) (by decide)

/-- C9: when the Web and its content holder exist but the workload is
absent, a fault-free pass creates only the missing workload: the
ConfigMap list (and the stored ConfigMap itself) is unchanged, the only
write is the Deployment create, and the pass succeeds. -/
theorem partial_failure_resumes_workload_only (c : Cluster) (req : Request)
    (web : Web) (cm : ConfigMap)
    (hw : findWeb c req.name req.ns = some web)
    (hc : findCM c.state (web.name ++ "-cm") web.ns = some cm)
    (hd : findDep c.state (web.name ++ "deployment") web.ns = none) :
    reconcile defaultEnv c req =
      (Outcome.ok,
        { c with state := ⟨c.state.configMaps,
                            ownedDep web :: c.state.deployments⟩ },
        [WriteOp.createdDep (ownedDep web)]) := by
  obtain ⟨hname, -⟩ := findCM_some_key hc
  have hbody : reconcileWeb defaultEnv web c.state =
      (Outcome.ok,
        ⟨c.state.configMaps, ownedDep web :: c.state.deployments⟩,
        [WriteOp.createdDep (ownedDep web)]) := by
    simp [reconcileWeb, getCM, depStep, getDep, setOwnerDep, createDepOp,
      defaultEnv, hc, hd, hname, desiredDeployment, ownedDep]
  rw [reconcile_found rfl hw, hbody]

theorem partial_failure_resumes_workload_only_witness :
    reconcile defaultEnv ⟨[webSite], ⟨[siteCM], []⟩⟩ ⟨"site", "ns"⟩ =
      (Outcome.ok,
        ⟨[webSite], ⟨[siteCM], [ownedDep webSite]⟩⟩,
        [WriteOp.createdDep (ownedDep webSite)]) :=
  partial_failure_resumes_workload_only ⟨[webSite], ⟨[siteCM], []⟩⟩
    ⟨"site", "ns"⟩ webSite siteCM (by decide) (by decide) (by decide)

/-! ### Write-log helpers and shape lemmas -/

/-- The owner references carried by the object of a write. -/
def writeOwners (w : WriteOp) : List String :=
  match w with
  | WriteOp.createdCM cm => cm.ownerRefs
  | WriteOp.createdDep d => d.ownerRefs

/-- Every write of the log carries exactly the given owner reference. -/
def allOwnedBy (ws : List WriteOp) (owner : String) : Bool :=
  ws.all fun w => writeOwners w == [owner]

/-- Whether the log contains a Deployment create. -/
def hasDepWrite (ws : List WriteOp) : Bool :=
  ws.any fun w =>
    match w with
    | WriteOp.createdDep _ => true
    | WriteOp.createdCM _ => false

/-- Every Deployment create of the log leaves the replica count unset. -/
def depWritesNoReplicas (ws : List WriteOp) : Bool :=
  ws.all fun w =>
    match w with
    | WriteOp.createdDep d => d.spec.replicas.isNone
    | WriteOp.createdCM _ => true

/-- Every container of the deployment declares no ports. -/
def containersNoPorts (d : Deployment) : Bool :=
  d.spec.containers.all fun ct => ct.ports.isEmpty

/-- The Deployment step appends at most one write: the owned desired
deployment referencing `cm.name`. -/
lemma depStep_writes (e : Env) (web : Web) (cm : ConfigMap) (s : DepState)
    (ws : List WriteOp) :
    (depStep e web cm s ws).2.2 = ws ∨
    (depStep e web cm s ws).2.2 =
      ws ++ [WriteOp.createdDep
        { desiredDeployment web cm.name with ownerRefs := [web.name] }] := by
  unfold depStep
  split
  · left; rfl
  · left; rfl
  · split
    · left; rfl
    next dep1 hok =>
      have hdep1 := setOwnerDep_ok hok
      subst hdep1
      split
      · left; rfl
      · left; rfl
      · right; rfl

/-- A pass body writes one of four logs: nothing, only the workload, only
the content holder, or the content holder followed by the workload. -/
lemma reconcileWeb_writes (e : Env) (web : Web) (s : DepState) :
    (reconcileWeb e web s).2.2 = [] ∨
    (reconcileWeb e web s).2.2 = [WriteOp.createdDep (ownedDep web)] ∨
    (reconcileWeb e web s).2.2 = [WriteOp.createdCM (ownedCM web)] ∨
    (reconcileWeb e web s).2.2 =
      [WriteOp.createdCM (ownedCM web), WriteOp.createdDep (ownedDep web)] := by
  unfold reconcileWeb
  split
  · left; rfl
  next cm hfound =>
    have hkey := (findCM_some_key (getCM_found_key hfound)).1
    rcases depStep_writes e web cm s [] with h | h
    · left; exact h
    · right; left; rw [h, hkey]; exact rfl
  · split
    · left; rfl
    next cm1 hok =>
      have hcm1 := setOwnerCM_ok hok
      subst hcm1
      split
      · left; rfl
      next s1 hcr =>
        rcases depStep_writes e web _ s1 [] with h | h
        · left; exact h
        · right; left; rw [h]; exact rfl
      next s1 hcr =>
        rcases depStep_writes e web _ s1
            [WriteOp.createdCM { desiredConfigMap web with ownerRefs := [web.name] }]
          with h | h
        · right; right; left; rw [h]; exact rfl
        · right; right; right; rw [h]; exact rfl

/-- C5: any non-NotFound failure aborts the pass with that error.  With the
Web present: a ConfigMap fetch fault, an owner-link fault or a create
fault on the ConfigMap step each return the error with the cluster
unchanged and zero writes (the workload step is not attempted); a
Deployment fetch fault, owner-link fault or create fault each return the
error, write no Deployment and leave the stored deployments unchanged. -/
theorem nonNotFound_failures_abort_pass :
    (∀ (c : Cluster) (req : Request) (web : Web) (m : String),
      findWeb c req.name req.ns = some web →
      reconcile { defaultEnv with getCMFault := some m } c req =
        (Outcome.err m, c, [])) ∧
    (∀ (c : Cluster) (req : Request) (web : Web) (m : String),
      findWeb c req.name req.ns = some web →
      findCM c.state (web.name ++ "-cm") web.ns = none →
      reconcile { defaultEnv with setOwnerCMFault := some m } c req =
        (Outcome.err m, c, [])) ∧
    (∀ (c : Cluster) (req : Request) (web : Web) (m : String),
      findWeb c req.name req.ns = some web →
      findCM c.state (web.name ++ "-cm") web.ns = none →
      reconcile { defaultEnv with createCMFault := some m } c req =
        (Outcome.err m, c, [])) ∧
    (∀ (c : Cluster) (req : Request) (web : Web) (m : String),
      findWeb c req.name req.ns = some web →
      (reconcile { defaultEnv with getDepFault := some m } c req).1 =
          Outcome.err m ∧
        hasDepWrite
            (reconcile { defaultEnv with getDepFault := some m } c req).2.2 =
          false ∧
        (reconcile { defaultEnv with getDepFault := some m }
              c req).2.1.state.deployments =
          c.state.deployments) ∧
    (∀ (c : Cluster) (req : Request) (web : Web) (m : String),
      findWeb c req.name req.ns = some web →
      findDep c.state (web.name ++ "deployment") web.ns = none →
      (reconcile { defaultEnv with setOwnerDepFault := some m } c req).1 =
          Outcome.err m ∧
        hasDepWrite
            (reconcile { defaultEnv with setOwnerDepFault := some m }
              c req).2.2 =
          false ∧
        (reconcile { defaultEnv with setOwnerDepFault := some m }
              c req).2.1.state.deployments =
          c.state.deployments) ∧
    (∀ (c : Cluster) (req : Request) (web : Web) (m : String),
      findWeb c req.name req.ns = some web →
      findDep c.state (web.name ++ "deployment") web.ns = none →
      (reconcile { defaultEnv with createDepFault := some m } c req).1 =
          Outcome.err m ∧
        hasDepWrite
            (reconcile { defaultEnv with createDepFault := some m }
              c req).2.2 =
          false ∧
        (reconcile { defaultEnv with createDepFault := some m }
              c req).2.1.state.deployments =
          c.state.deployments) := by
  refine ⟨?_, ?_, ?_, ?_, ?_, ?_⟩
  · intro c req web m hw
    have hbody : reconcileWeb { defaultEnv with getCMFault := some m }
        web c.state = (Outcome.err m, c.state, []) := by
      simp [reconcileWeb, getCM, defaultEnv]
    rw [reconcile_found rfl hw, hbody]
  · intro c req web m hw hc
    have hbody : reconcileWeb { defaultEnv with setOwnerCMFault := some m }
        web c.state = (Outcome.err m, c.state, []) := by
      simp [reconcileWeb, getCM, setOwnerCM, defaultEnv, hc]
    rw [reconcile_found rfl hw, hbody]
  · intro c req web m hw hc
    have hbody : reconcileWeb { defaultEnv with createCMFault := some m }
        web c.state = (Outcome.err m, c.state, []) := by
      simp [reconcileWeb, getCM, setOwnerCM, createCMOp, defaultEnv, hc]
    rw [reconcile_found rfl hw, hbody]
  · intro c req web m hw
    rw [reconcile_found rfl hw]
    cases hsplit : findCM c.state (web.name ++ "-cm") web.ns with
    | some cm =>
      have hbody : reconcileWeb { defaultEnv with getDepFault := some m }
          web c.state = (Outcome.err m, c.state, []) := by
        simp [reconcileWeb, getCM, depStep, getDep, defaultEnv, hsplit]
      rw [hbody]
      exact ⟨rfl, rfl, rfl⟩
    | none =>
      have hbody : reconcileWeb { defaultEnv with getDepFault := some m }
          web c.state =
          (Outcome.err m,
            ⟨ownedCM web :: c.state.configMaps, c.state.deployments⟩,
            [WriteOp.createdCM (ownedCM web)]) := by
        simp [reconcileWeb, getCM, setOwnerCM, createCMOp, depStep, getDep,
          defaultEnv, hsplit, desiredConfigMap, ownedCM]
      rw [hbody]
      exact ⟨rfl, rfl, rfl⟩
  · intro c req web m hw hd
    rw [reconcile_found rfl hw]
    cases hsplit : findCM c.state (web.name ++ "-cm") web.ns with
    | some cm =>
      have hbody : reconcileWeb { defaultEnv with setOwnerDepFault := some m }
          web c.state = (Outcome.err m, c.state, []) := by
        simp [reconcileWeb, getCM, depStep, getDep, setOwnerDep, defaultEnv,
          hsplit, hd]
      rw [hbody]
      exact ⟨rfl, rfl, rfl⟩
    | none =>
      have hbody : reconcileWeb { defaultEnv with setOwnerDepFault := some m }
          web c.state =
          (Outcome.err m,
            ⟨ownedCM web :: c.state.configMaps, c.state.deployments⟩,
            [WriteOp.createdCM (ownedCM web)]) := by
        simp [reconcileWeb, getCM, setOwnerCM, createCMOp, depStep, getDep,
          setOwnerDep, defaultEnv, hsplit, hd, desiredConfigMap, ownedCM]
      rw [hbody]
      exact ⟨rfl, rfl, rfl⟩
  · intro c req web m hw hd
    rw [reconcile_found rfl hw]
    cases hsplit : findCM c.state (web.name ++ "-cm") web.ns with
    | some cm =>
      have hbody : reconcileWeb { defaultEnv with createDepFault := some m }
          web c.state = (Outcome.err m, c.state, []) := by
        simp [reconcileWeb, getCM, depStep, getDep, setOwnerDep, createDepOp,
          defaultEnv, hsplit, hd]
      rw [hbody]
      exact ⟨rfl, rfl, rfl⟩
    | none =>
      have hbody : reconcileWeb { defaultEnv with createDepFault := some m }
          web c.state =
          (Outcome.err m,
            ⟨ownedCM web :: c.state.configMaps, c.state.deployments⟩,
            [WriteOp.createdCM (ownedCM web)]) := by
        simp [reconcileWeb, getCM, setOwnerCM, createCMOp, depStep, getDep,
          setOwnerDep, createDepOp, defaultEnv, hsplit, hd, desiredConfigMap,
          ownedCM]
      rw [hbody]
      exact ⟨rfl, rfl, rfl⟩

theorem nonNotFound_failures_abort_pass_witness :
    (reconcile { defaultEnv with getCMFault := some "boom" }
        ⟨[webSite], ⟨[], []⟩⟩ ⟨"site", "ns"⟩ =
      (Outcome.err "boom", ⟨[webSite], ⟨[], []⟩⟩, [])) ∧
    (reconcile { defaultEnv with setOwnerCMFault := some "boom" }
        ⟨[webSite], ⟨[], []⟩⟩ ⟨"site", "ns"⟩ =
      (Outcome.err "boom", ⟨[webSite], ⟨[], []⟩⟩, [])) ∧
    (reconcile { defaultEnv with createCMFault := some "boom" }
        ⟨[webSite], ⟨[], []⟩⟩ ⟨"site", "ns"⟩ =
      (Outcome.err "boom", ⟨[webSite], ⟨[], []⟩⟩, [])) ∧
    ((reconcile { defaultEnv with getDepFault := some "boom" }
          ⟨[webSite], ⟨[], []⟩⟩ ⟨"site", "ns"⟩).1 = Outcome.err "boom" ∧
      hasDepWrite
          (reconcile { defaultEnv with getDepFault := some "boom" }
            ⟨[webSite], ⟨[], []⟩⟩ ⟨"site", "ns"⟩).2.2 = false ∧
      (reconcile { defaultEnv with getDepFault := some "boom" }
            ⟨[webSite], ⟨[], []⟩⟩ ⟨"site", "ns"⟩).2.1.state.deployments =
        (⟨[webSite], ⟨[], []⟩⟩ : Cluster).state.deployments) ∧
    ((reconcile { defaultEnv with setOwnerDepFault := some "boom" }
          ⟨[webSite], ⟨[siteCM], []⟩⟩ ⟨"site", "ns"⟩).1 = Outcome.err "boom" ∧
      hasDepWrite
          (reconcile { defaultEnv with setOwnerDepFault := some "boom" }
            ⟨[webSite], ⟨[siteCM], []⟩⟩ ⟨"site", "ns"⟩).2.2 = false ∧
      (reconcile { defaultEnv with setOwnerDepFault := some "boom" }
            ⟨[webSite], ⟨[siteCM], []⟩⟩ ⟨"site", "ns"⟩).2.1.state.deployments =
        (⟨[webSite], ⟨[siteCM], []⟩⟩ : Cluster).state.deployments) ∧
    ((reconcile { defaultEnv with createDepFault := some "boom" }
          ⟨[webSite], ⟨[siteCM], []⟩⟩ ⟨"site", "ns"⟩).1 = Outcome.err "boom" ∧
      hasDepWrite
          (reconcile { defaultEnv with createDepFault := some "boom" }
            ⟨[webSite], ⟨[siteCM], []⟩⟩ ⟨"site", "ns"⟩).2.2 = false ∧
      (reconcile { defaultEnv with createDepFault := some "boom" }
            ⟨[webSite], ⟨[siteCM], []⟩⟩ ⟨"site", "ns"⟩).2.1.state.deployments =
        (⟨[webSite], ⟨[siteCM], []⟩⟩ : Cluster).state.deployments) :=
  ⟨nonNotFound_failures_abort_pass.1 ⟨[webSite], ⟨[], []⟩⟩ ⟨"site", "ns"⟩
      webSite "boom" (by decide),
    nonNotFound_failures_abort_pass.2.1 ⟨[webSite], ⟨[], []⟩⟩ ⟨"site", "ns"⟩
      webSite "boom" (by decide) (by decide),
    nonNotFound_failures_abort_pass.2.2.1 ⟨[webSite], ⟨[], []⟩⟩ ⟨"site", "ns"⟩
      webSite "boom" (by decide) (by decide),
    nonNotFound_failures_abort_pass.2.2.2.1 ⟨[webSite], ⟨[], []⟩⟩
      ⟨"site", "ns"⟩ webSite "boom" (by decide),
    nonNotFound_failures_abort_pass.2.2.2.2.1 ⟨[webSite], ⟨[siteCM], []⟩⟩
      ⟨"site", "ns"⟩ webSite "boom" (by decide) (by decide),
    nonNotFound_failures_abort_pass.2.2.2.2.2 ⟨[webSite], ⟨[siteCM], []⟩⟩
      ⟨"site", "ns"⟩ webSite "boom" (by decide) (by decide)⟩

/-- C6: an AlreadyExists conflict on a create is swallowed.  If the
ConfigMap was fetched as absent but a concurrent creator lands an object
with the same key just before our create, the conflict is not surfaced,
the pass continues to the Deployment step and ends in success; likewise a
conflict on the Deployment create still ends the pass in success. -/
theorem alreadyExists_swallowed :
    (∀ (c : Cluster) (req : Request) (web : Web) (r : ConfigMap),
      findWeb c req.name req.ns = some web →
      findCM c.state (web.name ++ "-cm") web.ns = none →
      findDep c.state (web.name ++ "deployment") web.ns = none →
      r.name = web.name ++ "-cm" → r.ns = web.ns →
      reconcile { defaultEnv with cmRace := some r } c req =
        (Outcome.ok,
          { c with state := ⟨r :: c.state.configMaps,
                              ownedDep web :: c.state.deployments⟩ },
          [WriteOp.createdDep (ownedDep web)])) ∧
    (∀ (c : Cluster) (req : Request) (web : Web) (cm : ConfigMap)
        (rd : Deployment),
      findWeb c req.name req.ns = some web →
      findCM c.state (web.name ++ "-cm") web.ns = some cm →
      findDep c.state (web.name ++ "deployment") web.ns = none →
      rd.name = web.name ++ "deployment" → rd.ns = web.ns →
      reconcile { defaultEnv with depRace := some rd } c req =
        (Outcome.ok,
          { c with state := ⟨c.state.configMaps, rd :: c.state.deployments⟩ },
          [])) := by
  constructor
  · intro c req web r hw hc hd hr1 hr2
    have hbody : reconcileWeb { defaultEnv with cmRace := some r } web c.state =
        (Outcome.ok,
          ⟨r :: c.state.configMaps, ownedDep web :: c.state.deployments⟩,
          [WriteOp.createdDep (ownedDep web)]) := by
      simp [reconcileWeb, getCM, setOwnerCM, createCMOp, depStep, getDep,
        setOwnerDep, createDepOp, defaultEnv, findCM, findDep, hr1, hr2,
        desiredConfigMap, desiredDeployment, ownedDep,
        (by simpa [findCM] using hc : c.state.configMaps.find?
          (fun x => x.name == web.name ++ "-cm" && x.ns == web.ns) = none),
        (by simpa [findDep] using hd : c.state.deployments.find?
          (fun x => x.name == web.name ++ "deployment" && x.ns == web.ns) =
            none)]
    rw [reconcile_found rfl hw, hbody]
  · intro c req web cm rd hw hc hd hr1 hr2
    obtain ⟨hname, -⟩ := findCM_some_key hc
    have hbody : reconcileWeb { defaultEnv with depRace := some rd }
        web c.state =
        (Outcome.ok, ⟨c.state.configMaps, rd :: c.state.deployments⟩, []) := by
      simp [reconcileWeb, getCM, depStep, getDep, setOwnerDep, createDepOp,
        defaultEnv, findDep, hc, hname, hr1, hr2, desiredDeployment,
        (by simpa [findDep] using hd : c.state.deployments.find?
          (fun x => x.name == web.name ++ "deployment" && x.ns == web.ns) =
            none)]
    rw [reconcile_found rfl hw, hbody]

theorem alreadyExists_swallowed_witness :
    (reconcile { defaultEnv with cmRace := some siteCM }
        ⟨[webSite], ⟨[], []⟩⟩ ⟨"site", "ns"⟩ =
      (Outcome.ok, ⟨[webSite], ⟨[siteCM], [ownedDep webSite]⟩⟩,
        [WriteOp.createdDep (ownedDep webSite)])) ∧
    (reconcile { defaultEnv with depRace := some siteDep }
        ⟨[webSite], ⟨[siteCM], []⟩⟩ ⟨"site", "ns"⟩ =
      (Outcome.ok, ⟨[webSite], ⟨[siteCM], [siteDep]⟩⟩, [])) :=
  ⟨alreadyExists_swallowed.1 ⟨[webSite], ⟨[], []⟩⟩ ⟨"site", "ns"⟩ webSite
      siteCM (by decide) (by decide) (by decide) (by decide) (by decide),
    alreadyExists_swallowed.2 ⟨[webSite], ⟨[siteCM], []⟩⟩ ⟨"site", "ns"⟩
      webSite siteCM siteDep (by decide) (by decide) (by decide) (by decide)
      (by decide)⟩

/-- C7: dependents are never created without the ownership link.  Every
object a pass body creates carries the owner reference to its Web; and
when setting the link fails, the create is not attempted: on the
ConfigMap step the pass stops with the error, the state unchanged and no
writes, and on the Deployment step the pass stops with the error, writes
no Deployment and leaves the stored deployments unchanged. -/
theorem ownership_link_precedes_create :
    (∀ (e : Env) (web : Web) (s : DepState),
      allOwnedBy (reconcileWeb e web s).2.2 web.name = true) ∧
    (∀ (web : Web) (s : DepState) (m : String),
      findCM s (web.name ++ "-cm") web.ns = none →
      reconcileWeb { defaultEnv with setOwnerCMFault := some m } web s =
        (Outcome.err m, s, [])) ∧
    (∀ (web : Web) (s : DepState) (m : String),
      findDep s (web.name ++ "deployment") web.ns = none →
      (reconcileWeb { defaultEnv with setOwnerDepFault := some m }
            web s).1 = Outcome.err m ∧
        hasDepWrite
            (reconcileWeb { defaultEnv with setOwnerDepFault := some m }
              web s).2.2 = false ∧
        (reconcileWeb { defaultEnv with setOwnerDepFault := some m }
              web s).2.1.deployments = s.deployments) := by
  refine ⟨?_, ?_, ?_⟩
  · intro e web s
    rcases reconcileWeb_writes e web s with h | h | h | h <;> rw [h] <;>
      simp [allOwnedBy, writeOwners, ownedCM, ownedDep, desiredConfigMap,
        desiredDeployment]
  · intro web s m hc
    simp [reconcileWeb, getCM, setOwnerCM, defaultEnv, hc]
  · intro web s m hd
    cases hsplit : findCM s (web.name ++ "-cm") web.ns with
    | some cm =>
      have hbody : reconcileWeb { defaultEnv with setOwnerDepFault := some m }
          web s = (Outcome.err m, s, []) := by
        simp [reconcileWeb, getCM, depStep, getDep, setOwnerDep, defaultEnv,
          hsplit, hd]
      rw [hbody]
      exact ⟨rfl, rfl, rfl⟩
    | none =>
      have hbody : reconcileWeb { defaultEnv with setOwnerDepFault := some m }
          web s =
          (Outcome.err m, ⟨ownedCM web :: s.configMaps, s.deployments⟩,
            [WriteOp.createdCM (ownedCM web)]) := by
        simp [reconcileWeb, getCM, setOwnerCM, createCMOp, depStep, getDep,
          setOwnerDep, defaultEnv, hsplit, hd, desiredConfigMap, ownedCM]
      rw [hbody]
      exact ⟨rfl, rfl, rfl⟩

theorem ownership_link_precedes_create_witness :
    (allOwnedBy
        (reconcileWeb defaultEnv webSite ⟨[], []⟩).2.2 webSite.name = true) ∧
    (reconcileWeb { defaultEnv with setOwnerCMFault := some "boom" }
        webSite ⟨[], []⟩ = (Outcome.err "boom", ⟨[], []⟩, [])) ∧
    ((reconcileWeb { defaultEnv with setOwnerDepFault := some "boom" }
          webSite ⟨[siteCM], []⟩).1 = Outcome.err "boom" ∧
      hasDepWrite
          (reconcileWeb { defaultEnv with setOwnerDepFault := some "boom" }
            webSite ⟨[siteCM], []⟩).2.2 = false ∧
      (reconcileWeb { defaultEnv with setOwnerDepFault := some "boom" }
            webSite ⟨[siteCM], []⟩).2.1.deployments =
        (⟨[siteCM], []⟩ : DepState).deployments) :=
  ⟨ownership_link_precedes_create.1 defaultEnv webSite ⟨[], []⟩,
    ownership_link_precedes_create.2.1 webSite ⟨[], []⟩ "boom" (by decide),
    ownership_link_precedes_create.2.2 webSite ⟨[siteCM], []⟩ "boom"
      (by decide)⟩

/-- C8: the spec's Size field is never propagated: every Deployment a
pass creates leaves the replica count unset (`Replicas` nil), and the
desired-state resolver itself sets no replica count for any in-range
size. -/
theorem replica_count_not_propagated :
    (∀ (e : Env) (c : Cluster) (req : Request),
      depWritesNoReplicas (reconcile e c req).2.2 = true) ∧
    (∀ (web : Web) (cmName : String),
      1 ≤ web.spec.size → web.spec.size ≤ 5 →
      (desiredDeployment web cmName).spec.replicas = none) := by
  constructor
  · intro e c req
    unfold reconcile
    cases hg : getWeb e c req.name req.ns with
    | fault m => rfl
    | notFound => rfl
    | found web =>
      show depWritesNoReplicas (reconcileWeb e web c.state).2.2 = true
      rcases reconcileWeb_writes e web c.state with h | h | h | h <;> rw [h] <;>
        simp [depWritesNoReplicas, ownedDep, desiredDeployment]
  · intro web cmName h1 h2
    rfl

theorem replica_count_not_propagated_witness :
    (depWritesNoReplicas
        (reconcile defaultEnv ⟨[webSite], ⟨[], []⟩⟩ ⟨"site", "ns"⟩).2.2 =
      true) ∧
    ((desiredDeployment webSite "site-cm").spec.replicas = none) :=
  ⟨replica_count_not_propagated.1 defaultEnv ⟨[webSite], ⟨[], []⟩⟩
      ⟨"site", "ns"⟩,
    replica_count_not_propagated.2 webSite "site-cm" (by decide) (by decide)⟩

/-- The pass body never reads the spec's containerPort: two Webs agreeing
on name, namespace, size, image and htmlContent drive it identically. -/
lemma reconcileWeb_ignores_containerPort (e : Env) (s : DepState)
    (w1 w2 : Web) (h1 : w1.name = w2.name) (h2 : w1.ns = w2.ns)
    (h3 : w1.spec.size = w2.spec.size) (h4 : w1.spec.image = w2.spec.image)
    (h5 : w1.spec.htmlContent = w2.spec.htmlContent) :
    reconcileWeb e w1 s = reconcileWeb e w2 s := by
  rcases w1 with ⟨n1, nsp1, sz1, p1, im1, ht1⟩
  rcases w2 with ⟨n2, nsp2, sz2, p2, im2, ht2⟩
  simp only at h1 h2 h3 h4 h5
  subst h1; subst h2; subst h3; subst h4; subst h5
  rfl

/-- C10: containerPort has no influence.  Two Webs identical except for
containerPort make the pass body take the very same steps; with either
stored in otherwise-identical clusters, reconcile returns identical
outcomes, identical write logs and identical dependent state; and no
container of the resolved workload declares any port. -/
theorem containerPort_noninterference :
    (∀ (e : Env) (s : DepState) (w1 w2 : Web),
      w1.name = w2.name → w1.ns = w2.ns → w1.spec.size = w2.spec.size →
      w1.spec.image = w2.spec.image →
      w1.spec.htmlContent = w2.spec.htmlContent →
      reconcileWeb e w1 s = reconcileWeb e w2 s) ∧
    (∀ (e : Env) (c1 c2 : Cluster) (req : Request) (w1 w2 : Web),
      e.getWebFault = none →
      findWeb c1 req.name req.ns = some w1 →
      findWeb c2 req.name req.ns = some w2 →
      c1.state = c2.state →
      w1.name = w2.name → w1.ns = w2.ns → w1.spec.size = w2.spec.size →
      w1.spec.image = w2.spec.image →
      w1.spec.htmlContent = w2.spec.htmlContent →
      (reconcile e c1 req).1 = (reconcile e c2 req).1 ∧
        (reconcile e c1 req).2.2 = (reconcile e c2 req).2.2 ∧
        (reconcile e c1 req).2.1.state = (reconcile e c2 req).2.1.state) ∧
    (∀ (web : Web) (cmName : String),
      containersNoPorts (desiredDeployment web cmName) = true) := by
  refine ⟨?_, ?_, ?_⟩
  · exact fun e s w1 w2 h1 h2 h3 h4 h5 =>
      reconcileWeb_ignores_containerPort e s w1 w2 h1 h2 h3 h4 h5
  · intro e c1 c2 req w1 w2 he hw1 hw2 hstate h1 h2 h3 h4 h5
    have hb : reconcileWeb e w1 c1.state = reconcileWeb e w2 c2.state := by
      rw [hstate]
      exact reconcileWeb_ignores_containerPort e c2.state w1 w2 h1 h2 h3 h4 h5
    rw [reconcile_found he hw1, reconcile_found he hw2, hb]
    exact ⟨rfl, rfl, rfl⟩
  · intro web cmName
    rfl

theorem containerPort_noninterference_witness :
    (reconcileWeb defaultEnv ⟨"site", "ns", 2, 80, "nginx:1.25", "<h1>hi</h1>"⟩
        ⟨[], []⟩ =
      reconcileWeb defaultEnv
        ⟨"site", "ns", 2, 9090, "nginx:1.25", "<h1>hi</h1>"⟩ ⟨[], []⟩) ∧
    ((reconcile defaultEnv
          ⟨[⟨"site", "ns", 2, 80, "nginx:1.25", "<h1>hi</h1>"⟩], ⟨[], []⟩⟩
          ⟨"site", "ns"⟩).1 =
        (reconcile defaultEnv
          ⟨[⟨"site", "ns", 2, 9090, "nginx:1.25", "<h1>hi</h1>"⟩], ⟨[], []⟩⟩
          ⟨"site", "ns"⟩).1 ∧
      (reconcile defaultEnv
          ⟨[⟨"site", "ns", 2, 80, "nginx:1.25", "<h1>hi</h1>"⟩], ⟨[], []⟩⟩
          ⟨"site", "ns"⟩).2.2 =
        (reconcile defaultEnv
          ⟨[⟨"site", "ns", 2, 9090, "nginx:1.25", "<h1>hi</h1>"⟩], ⟨[], []⟩⟩
          ⟨"site", "ns"⟩).2.2 ∧
      (reconcile defaultEnv
          ⟨[⟨"site", "ns", 2, 80, "nginx:1.25", "<h1>hi</h1>"⟩], ⟨[], []⟩⟩
          ⟨"site", "ns"⟩).2.1.state =
        (reconcile defaultEnv
          ⟨[⟨"site", "ns", 2, 9090, "nginx:1.25", "<h1>hi</h1>"⟩], ⟨[], []⟩⟩
          ⟨"site", "ns"⟩).2.1.state) ∧
    (containersNoPorts (desiredDeployment webSite "site-cm") = true) :=
  ⟨containerPort_noninterference.1 defaultEnv ⟨[], []⟩
      ⟨"site", "ns", 2, 80, "nginx:1.25", "<h1>hi</h1>"⟩
      ⟨"site", "ns", 2, 9090, "nginx:1.25", "<h1>hi</h1>"⟩
      (by decide) (by decide) (by decide) (by decide) (by decide),
    containerPort_noninterference.2.1 defaultEnv
      ⟨[⟨"site", "ns", 2, 80, "nginx:1.25", "<h1>hi</h1>"⟩], ⟨[], []⟩⟩
      ⟨[⟨"site", "ns", 2, 9090, "nginx:1.25", "<h1>hi</h1>"⟩], ⟨[], []⟩⟩
      ⟨"site", "ns"⟩
      ⟨"site", "ns", 2, 80, "nginx:1.25", "<h1>hi</h1>"⟩
      ⟨"site", "ns", 2, 9090, "nginx:1.25", "<h1>hi</h1>"⟩
      (by decide) (by decide) (by decide) (by decide) (by decide) (by decide)
      (by decide) (by decide) (by decide),
    containerPort_noninterference.2.2 webSite "site-cm"⟩

end WebOperator
